import Mathlib

/-!
# Verification of the crosstab reconciliation engine (`src/data_comparator.py`)

This file gives a shallow embedding, in Lean 4, of the parts of
`DataComparator` (the crosstab reconciliation engine of the
`etl_workflow` repository) that the frozen claims are about:

* the Value Normalizer (`normalize_value`),
* the year/header predicates (`is_year`, `_is_likely_header`),
* the data-cell test (`is_data_cell`) and the displayed-value accessor
  (`get_displayed_value`),
* the table-region detector (`find_data_table`),
* the header locators (`find_row_header`, `find_column_header`) with
  their per-file-type strategies,
* coordinate validation (`validate_coordinate_pair`),
* semantic equivalence (`apply_semantic_equivalence`,
  `normalize_coordinate_key`) and the equivalence tables,
* the extractor (`extract_simple_data_points`) and the matcher
  (`compare_simple_data`).

Python values are modelled by `PyVal` (None / str / numeric), Python
floats by exact rationals `ℚ`, worksheets by a total cell function with
explicit bounds, and Python dicts by insertion-ordered association
lists.  All definitions are executable, so concrete runs of the engine
can be settled by `decide`.
-/

namespace EtlWorkflow

-- The Batteries rational-number operations are sealed; closed-form
-- evaluation of the engine (needed by `decide` on concrete inputs)
-- requires them to reduce.
attribute [local semireducible] Rat.mul Rat.add Rat.sub Rat.inv Rat.ofScientific

/-! ## Python string primitives -/

/-- The characters matched by Python's `\s` (and stripped by `str.strip()`)
that can occur in the spreadsheet values in scope: ASCII whitespace plus the
non-breaking space ` `. -/
def pyIsSpace (c : Char) : Bool :=
  c = ' ' || c = '\t' || c = '\n' || c = '\r' || c = '\x0b' || c = '\x0c' || c = ' '

/-- Drop trailing characters satisfying `p`. -/
def dropTrailing (p : Char → Bool) (l : List Char) : List Char :=
  (l.reverse.dropWhile p).reverse

/-- Python `str.strip()` on character lists. -/
def stripChars (l : List Char) : List Char :=
  dropTrailing pyIsSpace (l.dropWhile pyIsSpace)

/-- Python `str.strip()`. -/
def pyStrip (s : String) : String :=
  ⟨stripChars s.data⟩

/-- Python `re.sub(r'\s+', '', s)`: remove every whitespace character. -/
def removeWSChars (l : List Char) : List Char :=
  l.filter (fun c => !pyIsSpace c)

/-- Python `str.lower()` (ASCII case folding; the letters this engine
compares case-insensitively are ASCII). -/
def pyLower (s : String) : String :=
  ⟨s.data.map Char.toLower⟩

/-- `leadsWith need hay`: `need` is an initial segment of `hay`. -/
def leadsWith : List Char → List Char → Bool
  | [], _ => true
  | _ :: _, [] => false
  | a :: as, b :: bs => a = b && leadsWith as bs

/-- Python `need in hay` (substring containment). -/
def containsSub (need : List Char) : List Char → Bool
  | [] => need.isEmpty
  | c :: rest => leadsWith need (c :: rest) || containsSub need rest

/-- Python `need in hay` on strings. -/
def strContains (hay need : String) : Bool :=
  containsSub need.data hay.data

/-- Python `s.startswith(pre)`. -/
def strStarts (s pre : String) : Bool :=
  leadsWith pre.data s.data

/-- Python `s.split(sep)` for a one-character separator. -/
def splitOnChar (c : Char) : List Char → List (List Char)
  | [] => [[]]
  | a :: rest =>
    let r := splitOnChar c rest
    if a = c then [] :: r
    else
      match r with
      | [] => [[a]]
      | h :: t => (a :: h) :: t

/-- Python `s.replace(f, t)` for one-character from/to. -/
def replaceChar (f t : Char) (l : List Char) : List Char :=
  l.map (fun c => if c = f then t else c)

/-- Python `re.sub(r'[^\d.\-+]', '', s)`: keep only digits, `.`, `-`, `+`. -/
def cleanNumeric (l : List Char) : List Char :=
  l.filter (fun c => c.isDigit || c = '.' || c = '-' || c = '+')

/-- Value of a list of decimal digits. -/
def digitsVal (l : List Char) : ℕ :=
  l.foldl (fun a c => a * 10 + (c.toNat - 48)) 0

/-- Python `float(s)` restricted to the decimal grammar that reaches it in
this engine (optional sign, digits, at most one dot; no exponent — every
call site has already reduced the string to digits, dots and signs, or
feeds header tokens for which both semantics fail).  Python `float`
tolerates surrounding whitespace, which is stripped first. -/
def pyFloatCore (l : List Char) : Option ℚ :=
  let t := stripChars l
  let signAndRest : ℚ × List Char :=
    match t with
    | '-' :: rest => (-1, rest)
    | '+' :: rest => (1, rest)
    | _ => (1, t)
  let sign := signAndRest.1
  let u := signAndRest.2
  match splitOnChar '.' u with
  | [intPart] =>
    if intPart ≠ [] && intPart.all Char.isDigit then
      some (sign * digitsVal intPart)
    else none
  | [intPart, fracPart] =>
    if (intPart ≠ [] || fracPart ≠ []) && intPart.all Char.isDigit
        && fracPart.all Char.isDigit then
      some (sign * ((digitsVal intPart : ℚ) + digitsVal fracPart / 10 ^ fracPart.length))
    else none
  | _ => none

/-- Python `float(s)` on strings. -/
def pyFloat (s : String) : Option ℚ :=
  pyFloatCore s.data

/-- Python `int(q)` for a float `q`: truncation toward zero. -/
def pyInt (q : ℚ) : ℤ :=
  if 0 ≤ q then q.floor else -((-q).floor)

/-- Python banker's rounding of `x` to an integer (`round(x)`), on exact
rationals. -/
def roundHalfEven (x : ℚ) : ℤ :=
  let f := x.floor
  let r := x - f
  if r < 1 / 2 then f
  else if 1 / 2 < r then f + 1
  else if f % 2 = 0 then f else f + 1

/-- Python `round(q, n)` on exact rationals. -/
def pyRound (q : ℚ) (n : ℕ) : ℚ :=
  (roundHalfEven (q * 10 ^ n) : ℚ) / 10 ^ n

/-! ## Python cell values and worksheets -/

/-- A raw spreadsheet cell value as the engine sees it: `None`, a string,
or a numeric value (Python `int`/`float`, modelled as an exact rational). -/
inductive PyVal where
  | none
  | str (s : String)
  | num (q : ℚ)
deriving DecidableEq, Repr

/-- Python truthiness of a cell value (`if cell.value: ...`). -/
def truthy : PyVal → Bool
  | .none => false
  | .str s => s ≠ ""
  | .num q => q ≠ 0

/-- Is the value a Python `str`? (`isinstance(value, str)`). -/
def isStrVal : PyVal → Bool
  | .str _ => true
  | _ => false

/-- Rendering of a rational used only where the source calls
`str(cell.value)` on a numeric cell; the resulting digits are only ever
fed to substring tests against alphabetic tokens and `:`, so the exact
digit layout is immaterial. -/
def numRender (q : ℚ) : String :=
  ⟨(toString q.num).data ++ (if q.den = 1 then [] else '/' :: (toString q.den).data)⟩

/-- Python `str(value)` for the cell values in scope. -/
def pyStr : PyVal → String
  | .none => "None"
  | .str s => s
  | .num q => numRender q

/-- Python `float(value)` applied to a raw cell value (used by `is_year`
and the year-header strategies). -/
def pyFloatOfVal : PyVal → Option ℚ
  | .none => Option.none
  | .str s => pyFloat s
  | .num q => some q

/-- An openpyxl cell: its value and its number-format string
(`"General"` when unset). -/
structure Cell where
  value : PyVal
  numberFormat : String
deriving DecidableEq, Repr

/-- A merged-cell range (`min_row`, `max_row`, `min_col`, `max_col`). -/
structure MergedRange where
  minRow : ℕ
  maxRow : ℕ
  minCol : ℕ
  maxCol : ℕ
deriving DecidableEq, Repr

/-- An openpyxl worksheet: bounds, a total (1-based) cell function, the
merged ranges, and the parent workbook's `path` attribute (used by the
engine to guess the file type). -/
structure Worksheet where
  maxRow : ℕ
  maxCol : ℕ
  cells : ℕ → ℕ → Cell
  merged : List MergedRange
  parentPath : String

/-- Python `range(a, b+1)` as an inclusive list `[a, …, b]`. -/
def pyRangeIncl (a b : ℕ) : List ℕ :=
  (List.range (b + 1 - a)).map (a + ·)

/-- Python `range(start, stop, -1)`: `[start, start-1, …, stop+1]`. -/
def pyRangeDown (start stop : ℕ) : List ℕ :=
  (List.range (start - stop)).map (fun i => start - i)

/-! ## Value Normalizer (`DataComparator.normalize_value`) -/

/-- `normalize_value` (src/data_comparator.py:277-348): the Value
Normalizer.  Strips whitespace, picks the decimal separator from the
counts and positions of commas and dots, removes any remaining
non-numeric characters, and parses; `None` on any failure. -/
def normalize_value (value : PyVal) : Option ℚ :=
  match value with
  | .none => Option.none
  | .num q => some q
  | .str s =>
    let str1 := pyStrip s
    if str1 = "" || str1 = "-" then Option.none
    else
      -- re.sub(r'\s+', '', str_value)
      let t := removeWSChars str1.data
      let commaCount := t.count ','
      let dotCount := t.count '.'
      let t2 :=
        if commaCount = 0 && dotCount ≤ 1 then
          -- simple format: the dot (if any) is the decimal separator
          t
        else if commaCount = 1 && dotCount = 0 then
          -- Portuguese format: the comma is the decimal separator
          replaceChar ',' '.' t
        else if 0 < commaCount && 0 < dotCount then
          -- mixed format: the later of (last comma, last dot) is decimal
          -- (`last_comma > last_dot` iff the comma is nearer the end)
          if t.reverse.indexOf ',' < t.reverse.indexOf '.' then
            replaceChar ',' '.' (t.filter (fun c => c ≠ '.'))
          else
            t.filter (fun c => c ≠ ',')
        else if 1 < commaCount then
          -- several commas: thousands separators
          t.filter (fun c => c ≠ ',')
        else if 1 < dotCount then
          -- several dots: final dot is decimal iff last segment has ≤2 digits
          let parts := splitOnChar '.' t
          if (parts.getLastD []).length ≤ 2 then
            parts.dropLast.flatten ++ '.' :: parts.getLastD []
          else
            t.filter (fun c => c ≠ '.')
        else t
      pyFloatCore (cleanNumeric t2)

/-! ## Year and header predicates -/

/-- `is_year` (src/data_comparator.py:2289-2309): a value is a year when
`float(value)` lands in `[1900, 2030]`. -/
def is_year (value : PyVal) : Bool :=
  match value with
  | .none => false
  | .str s =>
    match pyFloat s with
    | some q => decide (1900 ≤ q ∧ q ≤ 2030)
    | Option.none => false
  | .num q => decide (1900 ≤ q ∧ q ≤ 2030)

/-- The `obvious_headers` token list of `_is_likely_header`. -/
def obvious_headers : List String :=
  ["anos", "unidade:", "fonte:", "nota:", "continente",
   "açores", "madeira", "total geral", "região autónoma"]

/-- `_is_likely_header` (src/data_comparator.py:594-639): ultra-conservative
header test.  Empty cells, obvious textual headers, strings with a colon,
very short code-like strings, and numeric values inside the year range
`[1900, 2030]` are headers; every other numeric value is data. -/
def is_likely_header (cell : Cell) : Bool :=
  if !truthy cell.value then true
  else
    let cellStr := pyStrip (pyStr cell.value)
    if obvious_headers.any (fun h => strContains (pyLower cellStr) h) then true
    else if isStrVal cell.value && strContains cellStr ":" then true
    else if isStrVal cell.value && cellStr.length ≤ 4
        && (['.', 'I', 'X', 'V'].any (fun c => cellStr.data.contains c)) then true
    else
      match normalize_value cell.value with
      | some q => decide (1900 ≤ q ∧ q ≤ 2030)
      | Option.none => false

/-- `is_data_cell` (src/data_comparator.py:2311-2353): a cell holds
statistical data when it is truthy, numeric, not a year, not an obvious
header, and its normalized value exceeds 1. -/
def is_data_cell (cell : Cell) : Bool :=
  if !truthy cell.value then false
  else
    match normalize_value cell.value with
    | Option.none => false
    | some q =>
      if is_year cell.value then false
      else if is_likely_header cell then false
      else if q ≤ 1 then false
      else true

/-! ## Displayed value (`DataComparator.get_displayed_value`) -/

/-- Decimal places extracted from a number format by `get_displayed_value`:
`fmt.count('0') - len(fmt.split('.')[0].replace('#','').replace('0',''))`. -/
def fmtDecimalPlaces (fmt : String) : ℤ :=
  (fmt.data.count '0' : ℤ) -
    (((splitOnChar '.' fmt.data).headD []).filter (fun c => c ≠ '#' && c ≠ '0')).length

/-- `get_displayed_value` (src/data_comparator.py:880-956).  The source
casts native numbers directly and routes text through `normalize_value`
(whose numeric branch is exactly that cast); every non-numeric text path
of the source returns `None`.  A parsed value that is integer-valued in
`[1900, 2030]`, or integer-valued in `[1800, 2100]` (and `< 10000`), is a
year-like dimension and yields `None`; otherwise the value is rounded
according to the cell's number format. -/
def get_displayed_value (cell : Cell) : Option ℚ :=
  if cell.value = PyVal.none then Option.none
  else
    match normalize_value cell.value with
    | Option.none => Option.none
    | some q =>
      if 1900 ≤ q ∧ q ≤ 2030 ∧ q.den = 1 then Option.none
      else if 1800 ≤ q ∧ q ≤ 2100 ∧ q.den = 1 ∧ q < 10000 then Option.none
      else
        let fmt := cell.numberFormat
        let displayed :=
          if fmt ≠ "" ∧ fmt ≠ "General" ∧ strContains fmt "0.0" then
            let dp := fmtDecimalPlaces fmt
            if 0 < dp then pyRound q dp.toNat else q
          else q
        some displayed

/-! ## Semantic equivalence and coordinate keys -/

/-- The local `equivalence_map` of `apply_semantic_equivalence`
(src/data_comparator.py:2474-2489). -/
def equivalence_map : List (String × String) :=
  [("****", "4"), ("***", "3"), ("**", "2"), ("*", "1"),
   ("Total", "(Em branco)"),
   ("(Em branco)", "Total"),
   ("(em branco)", "Total"),
   ("total", "Total"),
   ("TOTAL", "Total"),
   ("Estabelecimentos hoteleiros", "Hotelaria"),
   ("Hotéis", "Hotel"),
   ("Pensões", "Pensão"),
   ("Motéis", "Motel"),
   ("Hotelaria", "Hotelaria"),
   ("Hotel", "Hotel"),
   ("Pensão", "Pensão"),
   ("Motel", "Motel")]

/-- `self.semantic_equivalents` (src/data_comparator.py:59-72): the
comparator's construction-time pairwise equivalence table. -/
def semantic_equivalents : List (String × String) :=
  [("****", "4"), ("***", "3"), ("**", "2"), ("*", "1"),
   ("Total", "(Em branco)"), ("(Em branco)", "Total"),
   ("(em branco)", "Total"), ("total", "Total"),
   ("Estabelecimentos hoteleiros", "Hotelaria"),
   ("Hotelaria", "Estabelecimentos hoteleiros"),
   ("Hotéis", "Hotel"), ("Hotel", "Hotéis"),
   ("Pensões", "Pensão"), ("Pensão", "Pensões"),
   ("Pousadas", "Pousada"), ("Pousada", "Pousadas"),
   ("Motéis", "Motel"), ("Motel", "Motéis"),
   ("Hotéis-apartamentos", "Hotel-apartamento"),
   ("Hotel-apartamento", "Hotéis-apartamentos"),
   ("n.º", "número"), ("número", "n.º")]

/-- Python `table.get(k)` on a string-to-string dict modelled as an
insertion-ordered association list. -/
def lookupStr (m : List (String × String)) (k : String) : Option String :=
  (m.find? (fun p => p.1 = k)).map (·.2)

/-- `apply_semantic_equivalence` (src/data_comparator.py:2461-2497):
strip the header text and replace it by its entry in `equivalence_map`,
if any.  Falsy (empty) input is returned unchanged. -/
def apply_semantic_equivalence (headerText : String) : String :=
  if headerText = "" then headerText
  else
    let cleanText := pyStrip headerText
    (lookupStr equivalence_map cleanText).getD cleanText

/-- A logical coordinate key `(row, column)`. -/
abbrev CoordKey := String × String

/-- `normalize_coordinate_key` (src/data_comparator.py:2752-2765). -/
def normalize_coordinate_key (row column : String) : CoordKey :=
  (apply_semantic_equivalence row, apply_semantic_equivalence column)

/-! ## Data points and the matcher (`compare_simple_data`) -/

/-- A data point produced by `extract_simple_data_points`
(src/data_comparator.py:2417-2424): semantically-normalized row/column
headers, displayed value, physical position, and the raw headers. -/
structure DataPoint where
  row : String
  column : String
  value : ℚ
  position : ℕ × ℕ
  originalRow : String
  originalColumn : String
deriving DecidableEq, Repr

/-- An entry of `correct_matches` / `value_differences`
(src/data_comparator.py:2575-2589).  For a match, `difference` is the
absolute difference; for a value difference it is the signed
`recreated - published`. -/
structure MatchEntry where
  coordinates : CoordKey
  publishedValue : ℚ
  recreatedValue : ℚ
  position : ℕ × ℕ
  difference : ℚ
deriving DecidableEq, Repr

/-- An entry of `missing_in_published` (src/data_comparator.py:2591-2595). -/
structure MissingPubEntry where
  coordinates : CoordKey
  recreatedValue : ℚ
  position : ℕ × ℕ
deriving DecidableEq, Repr

/-- An entry of `missing_in_recreated` (src/data_comparator.py:2598-2603). -/
structure MissingRecEntry where
  coordinates : CoordKey
  publishedValue : ℚ
deriving DecidableEq, Repr

/-- The per-sheet comparison results built by `compare_simple_data`
(src/data_comparator.py:2551-2626). -/
structure ComparisonResults where
  correctMatches : List MatchEntry
  valueDifferences : List MatchEntry
  missingInPublished : List MissingPubEntry
  missingInRecreated : List MissingRecEntry
  publishedDataPoints : ℕ
  recreatedDataPoints : ℕ
  accuracy : ℚ
  totalDiscrepancies : ℕ
deriving DecidableEq, Repr

/-- Insertion into a Python dict modelled as an ordered association list:
an existing key keeps its position but gets the new value (the later
entry silently overwrites the earlier one); a new key is appended. -/
def dictInsert (m : List (CoordKey × DataPoint)) (k : CoordKey) (v : DataPoint) :
    List (CoordKey × DataPoint) :=
  if m.any (fun p => p.1 = k) then
    m.map (fun p => if p.1 = k then (k, v) else p)
  else m ++ [(k, v)]

/-- `published_map` / `recreated_map` construction
(src/data_comparator.py:2529-2538): a dict keyed by
`normalize_coordinate_key(point['row'], point['column'])`. -/
def buildCoordinateMap (points : List DataPoint) : List (CoordKey × DataPoint) :=
  points.foldl (fun m p => dictInsert m (normalize_coordinate_key p.row p.column) p) []

/-- Python `map[k]` / `k in map` lookup. -/
def dictLookup (m : List (CoordKey × DataPoint)) (k : CoordKey) : Option DataPoint :=
  (m.find? (fun p => p.1 = k)).map (·.2)

/-- `self.numeric_tolerance` (src/data_comparator.py:45): the default
numeric tolerance of ±1 for published (rounded) numbers. -/
def numeric_tolerance : ℚ := 1

/-- `compare_simple_data` (src/data_comparator.py:2499-2626): build the
coordinate-keyed maps, then classify every recreated entry against the
published map (exact key hit → match or value difference by tolerance;
no hit → missing in published) and every unmatched published entry as
missing in recreated.  The source fills the four lists in one pass over
each map; they are written here as one traversal per list, which yields
the same lists in the same order. -/
def compare_simple_data (publishedPoints recreatedPoints : List DataPoint)
    (tolerance : ℚ) : ComparisonResults :=
  let publishedMap := buildCoordinateMap publishedPoints
  let recreatedMap := buildCoordinateMap recreatedPoints
  let correctMatches := recreatedMap.filterMap (fun kv =>
    match dictLookup publishedMap kv.1 with
    | some pub =>
      if |kv.2.value - pub.value| ≤ tolerance then
        some { coordinates := kv.1, publishedValue := pub.value,
               recreatedValue := kv.2.value, position := kv.2.position,
               difference := |kv.2.value - pub.value| }
      else Option.none
    | Option.none => Option.none)
  let valueDifferences := recreatedMap.filterMap (fun kv =>
    match dictLookup publishedMap kv.1 with
    | some pub =>
      if |kv.2.value - pub.value| ≤ tolerance then Option.none
      else
        some { coordinates := kv.1, publishedValue := pub.value,
               recreatedValue := kv.2.value, position := kv.2.position,
               difference := kv.2.value - pub.value }
    | Option.none => Option.none)
  let missingInPublished := recreatedMap.filterMap (fun kv =>
    match dictLookup publishedMap kv.1 with
    | some _ => Option.none
    | Option.none =>
      some { coordinates := kv.1, recreatedValue := kv.2.value,
             position := kv.2.position })
  let missingInRecreated := publishedMap.filterMap (fun kv =>
    match dictLookup recreatedMap kv.1 with
    | some _ => Option.none
    | Option.none =>
      some { coordinates := kv.1, publishedValue := kv.2.value })
  -- accuracy = (correct_matches / total_comparisons * 100) if total > 0 else 0
  let totalComparisons := recreatedPoints.length
  let accuracy : ℚ :=
    if 0 < totalComparisons then
      (correctMatches.length : ℚ) / (totalComparisons : ℚ) * 100
    else 0
  { correctMatches := correctMatches
    valueDifferences := valueDifferences
    missingInPublished := missingInPublished
    missingInRecreated := missingInRecreated
    publishedDataPoints := publishedPoints.length
    recreatedDataPoints := recreatedPoints.length
    accuracy := accuracy
    totalDiscrepancies := valueDifferences.length + missingInPublished.length }

/-! ## Table Region Detector (`DataComparator.find_data_table`) -/

/-- The cell test of `find_data_table` (src/data_comparator.py:568-571):
a non-`None` value that normalizes to a number and is not likely a
header. -/
def detector_accepts (cell : Cell) : Bool :=
  cell.value ≠ PyVal.none && (normalize_value cell.value).isSome
    && !is_likely_header cell

/-- The candidate data cells scanned by `find_data_table`
(src/data_comparator.py:566-580), in `iter_rows` order. -/
def detected_data_cells (ws : Worksheet) : List (ℕ × ℕ) :=
  (pyRangeIncl 1 ws.maxRow).flatMap (fun r =>
    (pyRangeIncl 1 ws.maxCol).filterMap (fun c =>
      if detector_accepts (ws.cells r c) then some (r, c) else Option.none))

/-- `find_data_table` (src/data_comparator.py:555-592): bounds of the
numeric data area.  With no candidate cell the whole sheet is returned;
otherwise the min/max rows and columns of the candidates, with the
minima pulled back by the 5-cell header margin. -/
def find_data_table (ws : Worksheet) : ℕ × ℕ × ℕ × ℕ :=
  match detected_data_cells ws with
  | [] => (1, ws.maxRow, 1, ws.maxCol)
  | p :: rest =>
    let minRow := rest.foldl (fun a q => min a q.1) p.1
    let maxRow := rest.foldl (fun a q => max a q.1) p.1
    let minCol := rest.foldl (fun a q => min a q.2) p.2
    let maxCol := rest.foldl (fun a q => max a q.2) p.2
    (max 1 (minRow - 5), maxRow, max 1 (minCol - 5), maxCol)

/-! ## Header validity tests -/

/-- The placeholder/symbol set rejected as headers.  The source repeats
this literal set in `validate_coordinate_pair`, `_is_valid_row_header`
and `find_column_header` (src/data_comparator.py:2784-2786, 2076-2078,
2185-2187). -/
def invalid_headers : List String :=
  ["-", ".", "•", "*", "**", "***", "****",
   "_", "()", "( )", ":", ";", ",", "|",
   "/", "\\", "+", "=", "#", "@", "!", "?"]

/-- The `valid_patterns` list of `_is_valid_row_header`
(src/data_comparator.py:2092-2100). -/
def valid_row_patterns : List String :=
  ["hotel", "hotelaria", "alojamento", "total", "estabelecimento",
   "pensão", "motel", "turismo", "branco", "em branco", "geral",
   "continente", "açores", "madeira", "região", "nacional",
   "abril", "maio", "junho", "julho", "agosto", "janeiro",
   "fevereiro", "março", "setembro", "outubro", "novembro", "dezembro",
   "categoria", "tipo", "classe", "star", "estrela", "norte",
   "centro", "sul", "lisboa", "porto"]

/-- The Portuguese characters accepted by `_is_valid_row_header`
(src/data_comparator.py:2107). -/
def portuguese_chars : List Char :=
  ['ã', 'ç', 'é', 'í', 'ó', 'ú', 'â', 'ê', 'ô']

/-- The pattern/length/Portuguese acceptance tail of
`_is_valid_row_header` (src/data_comparator.py:2091-2109), reached both
when the numeric test fails and when it parses a number `≤ 1000`. -/
def rowHeaderPatternOk (cleanValue : String) : Bool :=
  let cleanLower := pyLower cleanValue
  let hasPattern := valid_row_patterns.any (fun p => strContains cleanLower p)
  let isLongText := 5 ≤ cleanValue.length
  let hasPortuguese := portuguese_chars.any (fun c => cleanLower.data.contains c)
  hasPattern || isLongText || hasPortuguese

/-- `_is_valid_row_header` (src/data_comparator.py:2060-2109). -/
def is_valid_row_header (headerText : String) : Bool :=
  if headerText = "" || (pyStrip headerText).length < 2 then false
  else
    let cleanValue := pyStrip headerText
    if invalid_headers.contains cleanValue then false
    else
      match pyFloat ⟨replaceChar ',' '.' cleanValue.data⟩ with
      | some q => if 1000 < q then false else rowHeaderPatternOk cleanValue
      | Option.none => rowHeaderPatternOk cleanValue

/-! ## Row-header locator (`find_row_header` and its strategies) -/

/-- The repeated per-cell test of the row-header strategies: a truthy
string cell whose stripped value passes `_is_valid_row_header`
(e.g. src/data_comparator.py:1929-1934). -/
def validStrHeaderAt (ws : Worksheet) (r c : ℕ) : Option String :=
  match (ws.cells r c).value with
  | .str s =>
    if s ≠ "" && is_valid_row_header (pyStrip s) then some (pyStrip s)
    else Option.none
  | _ => Option.none

/-- The merged-range strategy shared by both row-header variants
(src/data_comparator.py:1946-1954 and 2030-2038): the first merged range
covering the data row whose top-left cell is a valid string header. -/
def mergedRowHeader (ws : Worksheet) (dataRow : ℕ) : Option String :=
  ws.merged.findSome? (fun mr =>
    if mr.minRow ≤ dataRow ∧ dataRow ≤ mr.maxRow then
      validStrHeaderAt ws mr.minRow mr.minCol
    else Option.none)

/-- `_find_row_header_published` (src/data_comparator.py:1908-1985):
strategies A (column 1), B (columns 2-5), C (merged cells), D (leftward
scan, up to 15 columns), E (vertical search over columns 1-5), then the
`Row_<r>` fallback. -/
def find_row_header_published (ws : Worksheet) (dataRow dataCol : ℕ) : String :=
  let stratA : Option String :=
    if 1 ≤ ws.maxCol then validStrHeaderAt ws dataRow 1 else Option.none
  let stratB : Option String :=
    [2, 3, 4, 5].findSome? (fun col =>
      if col ≤ ws.maxCol then validStrHeaderAt ws dataRow col else Option.none)
  let stratC : Option String := mergedRowHeader ws dataRow
  let maxSearchCols := min (dataCol - 1) 15
  let stratD : Option String :=
    (pyRangeDown (dataCol - 1) (max 0 (dataCol - maxSearchCols))).findSome?
      (fun col => validStrHeaderAt ws dataRow col)
  let stratE : Option String :=
    (pyRangeIncl 1 7).findSome? (fun offset =>
      [(-1 : ℤ), 1].findSome? (fun dir =>
        let targetRow : ℤ := (dataRow : ℤ) + (offset : ℤ) * dir
        if 1 ≤ targetRow ∧ targetRow ≤ (ws.maxRow : ℤ) then
          [1, 2, 3, 4, 5].findSome? (fun checkCol =>
            if checkCol ≤ ws.maxCol then
              validStrHeaderAt ws targetRow.toNat checkCol
            else Option.none)
        else Option.none))
  ((((stratA <|> stratB) <|> stratC) <|> stratD) <|> stratE).getD
    ("Row_" ++ toString dataRow)

/-- The `target_patterns` list of `_find_row_header_recreated` strategy 4
(src/data_comparator.py:2041-2044). -/
def target_patterns : List String :=
  ["Total", "Hotéis", "Hotelaria", "Pensões", "Motéis",
   "Alojamento", "Estabelecimentos", "Turismo", "Abril",
   "Maio", "Junho", "Julho", "Agosto", "Janeiro", "Fevereiro",
   "Março", "Setembro", "Outubro", "Novembro", "Dezembro"]

/-- `_find_row_header_recreated` (src/data_comparator.py:1987-2058):
strategy 1 (leftward scan bounded by 80% of the sheet width), strategy 2
(vertical search, offsets 1-10 and column offsets -5..5), strategy 3
(merged cells), strategy 4 (pattern scan along the data row), then the
`Row_<r>` fallback. -/
def find_row_header_recreated (ws : Worksheet) (dataRow dataCol : ℕ) : String :=
  let maxSearchCols : ℕ :=
    min (dataCol - 1) (pyInt ((ws.maxCol : ℚ) * (8 / 10))).toNat
  let strat1 : Option String :=
    (pyRangeDown (dataCol - 1) (max 0 (dataCol - maxSearchCols))).findSome?
      (fun col => validStrHeaderAt ws dataRow col)
  let strat2 : Option String :=
    (pyRangeIncl 1 10).findSome? (fun offset =>
      [(-1 : ℤ), 1].findSome? (fun dir =>
        let targetRow : ℤ := (dataRow : ℤ) + (offset : ℤ) * dir
        if 1 ≤ targetRow ∧ targetRow ≤ (ws.maxRow : ℤ) then
          ((List.range 11).map (fun i => (i : ℤ) - 5)).findSome? (fun colOffset =>
            let targetCol : ℤ := (dataCol : ℤ) + colOffset
            if 1 ≤ targetCol ∧ targetCol ≤ (ws.maxCol : ℤ) then
              validStrHeaderAt ws targetRow.toNat targetCol.toNat
            else Option.none)
        else Option.none))
  let strat3 : Option String := mergedRowHeader ws dataRow
  let strat4 : Option String :=
    (pyRangeIncl 1 ws.maxCol).findSome? (fun col =>
      match (ws.cells dataRow col).value with
      | .str s =>
        if s ≠ "" then
          let cellText := pyStrip s
          target_patterns.findSome? (fun pat =>
            if strContains (pyLower cellText) (pyLower pat) then some cellText
            else Option.none)
        else Option.none
      | _ => Option.none)
  ((((strat1 <|> strat2) <|> strat3) <|> strat4)).getD
    ("Row_" ++ toString dataRow)

/-- `find_row_header` (src/data_comparator.py:1880-1906): dispatch on the
file type guessed from the parent workbook path (`'result' in path`). -/
def find_row_header (ws : Worksheet) (dataRow dataCol : ℕ) : String :=
  if strContains (pyLower ws.parentPath) "result" then
    find_row_header_recreated ws dataRow dataCol
  else
    find_row_header_published ws dataRow dataCol

/-! ## Column-header locator -/

/-- `_detect_published_file_type` (src/data_comparator.py:2238-2287):
data in rows 1-10, year headers in rows 1-6 (for data rows 11-19),
published-style text in columns 1-2, or data in rows ≥ 30. -/
def detect_published_file_type (ws : Worksheet) (dataRow dataCol : ℕ) : Bool :=
  if dataRow ≤ 10 then true
  else
    let signal2 :=
      if 10 < dataRow ∧ dataRow < 20 then
        (pyRangeIncl 1 6).any (fun checkRow =>
          checkRow ≤ ws.maxRow &&
            (truthy (ws.cells checkRow dataCol).value
              && is_year (ws.cells checkRow dataCol).value))
      else false
    if signal2 then true
    else
      let signal3 :=
        [1, 2].any (fun checkCol =>
          checkCol ≤ ws.maxCol &&
            (match (ws.cells dataRow checkCol).value with
             | .str s =>
               s ≠ "" &&
                 (["categoria", "estabelecimentos", "total"].any
                   (fun pat => strContains (pyLower s) pat))
             | _ => false))
      if signal3 then true
      else 30 ≤ dataRow

/-- `str(int(float(cell.value)))` applied to a year-valued cell by the
column-header strategies (e.g. src/data_comparator.py:2140). -/
def yearString (v : PyVal) : String :=
  match pyFloatOfVal v with
  | some q => toString (pyInt q)
  | Option.none => ""

/-- The `cell.value and is_year(cell.value)` year probe of the published
column-header strategies (src/data_comparator.py:2138-2142). -/
def yearHeaderAt (ws : Worksheet) (r c : ℕ) : Option String :=
  let v := (ws.cells r c).value
  if truthy v && is_year v then some (yearString v) else Option.none

/-- The `valid_column_patterns` list of `find_column_header`
(src/data_comparator.py:2208-2211). -/
def valid_column_patterns : List String :=
  ["unidade", "total", "ano", "mês", "período",
   "trimestre", "semestre", "fonte", "nota"]

/-- `find_column_header` (src/data_comparator.py:2111-2236): for
published-style sheets, probe fixed header rows (1-6, 16, 17, 14-20) for
years in the data column; then, for both file types, scan upward from
the data cell (at most 30 rows), accepting year cells and legitimate
header text; finally the `Col_<c>` fallback. -/
def find_column_header (ws : Worksheet) (dataRow dataCol : ℕ) : String :=
  let isPublishedFile := detect_published_file_type ws dataRow dataCol
  let pubStrats : Option String :=
    if isPublishedFile then
      let stratA := (pyRangeIncl 1 6).findSome? (fun checkRow =>
        if checkRow ≤ ws.maxRow then yearHeaderAt ws checkRow dataCol
        else Option.none)
      let stratB := if 16 ≤ ws.maxRow then yearHeaderAt ws 16 dataCol else Option.none
      let stratC := if 17 ≤ ws.maxRow then yearHeaderAt ws 17 dataCol else Option.none
      let stratD := [14, 15, 18, 19, 20].findSome? (fun checkRow =>
        if checkRow ≤ ws.maxRow then yearHeaderAt ws checkRow dataCol
        else Option.none)
      ((stratA <|> stratB) <|> stratC) <|> stratD
    else Option.none
  let maxSearchRows := min (dataRow - 1) 30
  let generalStrat : Option String :=
    (pyRangeDown (dataRow - 1) (max 0 (dataRow - maxSearchRows))).findSome?
      (fun row =>
        let cellValue := (ws.cells row dataCol).value
        if truthy cellValue then
          match cellValue with
          | .str s =>
            let cleanValue := pyStrip s
            if invalid_headers.contains cleanValue then Option.none
            else if cleanValue.length < 2 then Option.none
            else
              match pyFloat ⟨replaceChar ',' '.' cleanValue.data⟩ with
              | some yearTest =>
                -- year-as-text is accepted; larger numbers are statistics;
                -- a parsed number below the year range falls through (skip)
                if 1900 ≤ yearTest ∧ yearTest ≤ 2030 then
                  some (toString (pyInt yearTest))
                else Option.none
              | Option.none =>
                let cleanLower := pyLower cleanValue
                if valid_column_patterns.any (fun p => strContains cleanLower p)
                    || 4 ≤ cleanValue.length then
                  some cleanValue
                else Option.none
          | .num q =>
            if 1900 ≤ q ∧ q ≤ 2030 then some (toString (pyInt q)) else Option.none
          | .none => Option.none
        else Option.none)
  (pubStrats <|> generalStrat).getD ("Col_" ++ toString dataCol)

/-! ## Coordinate validation and extraction -/

/-- `validate_coordinate_pair` (src/data_comparator.py:2767-2836):
reject symbol placeholders, statistical values used as headers
(row > 1000, column > 2030), and too-short headers (unless they are the
deterministic `Row_`/`Col_` fallbacks, which are accepted with a
warning). -/
def validate_coordinate_pair (rowHeader columnHeader : String) (_value : ℚ) : Bool :=
  if invalid_headers.contains rowHeader then false
  else if invalid_headers.contains columnHeader then false
  else if (match pyFloat ⟨replaceChar ',' '.' rowHeader.data⟩ with
           | some q => decide (1000 < q)
           | Option.none => false) then false
  else if (match pyFloat ⟨replaceChar ',' '.' columnHeader.data⟩ with
           | some q => decide (2030 < q)
           | Option.none => false) then false
  else if (pyStrip rowHeader).length < 2 && !strStarts rowHeader "Row_" then false
  else if (pyStrip columnHeader).length < 2 && !strStarts columnHeader "Col_" then false
  else true

/-- The per-cell step of `extract_simple_data_points`
(src/data_comparator.py:2391-2426): keep data cells, take the displayed
value, locate both headers, validate the pair, and emit the point with
semantically-normalized headers. -/
def extractionStep (ws : Worksheet) (rc : ℕ × ℕ) : Option DataPoint :=
  let cell := ws.cells rc.1 rc.2
  if is_data_cell cell then
    match get_displayed_value cell with
    | Option.none => Option.none
    | some value =>
      let rowHeader := find_row_header ws rc.1 rc.2
      let columnHeader := find_column_header ws rc.1 rc.2
      if !validate_coordinate_pair rowHeader columnHeader value then Option.none
      else
        some { row := apply_semantic_equivalence rowHeader
               column := apply_semantic_equivalence columnHeader
               value := value
               position := rc
               originalRow := rowHeader
               originalColumn := columnHeader }
  else Option.none

/-- `extract_simple_data_points` (src/data_comparator.py:2355-2459): run
the extraction step over every cell of the sheet in row-major order. -/
def extract_simple_data_points (ws : Worksheet) : List DataPoint :=
  ((pyRangeIncl 1 ws.maxRow).flatMap (fun row =>
    (pyRangeIncl 1 ws.maxCol).map (fun col => (row, col)))).filterMap
    (extractionStep ws)

/-! ## Concrete worksheets used by the theorems -/

/-- A cell with the default `"General"` number format. -/
def mkCell (v : PyVal) : Cell := ⟨v, "General"⟩

/-- A 2×2 demonstration sheet: a year header `2023` above the data cell,
the textual row header `"Hotelaria"` beside it, and a numeric cell at
`(2, 2)` with the given value and number format.  The parent path is the
constant in-archive path openpyxl reports for a loaded workbook. -/
def demoSheet (q : ℚ) (fmt : String) : Worksheet :=
  { maxRow := 2, maxCol := 2
    cells := fun r c =>
      if r = 1 ∧ c = 2 then mkCell (.num 2023)
      else if r = 2 ∧ c = 1 then mkCell (.str "Hotelaria")
      else if r = 2 ∧ c = 2 then { value := .num q, numberFormat := fmt }
      else mkCell .none
    merged := []
    parentPath := "/xl/workbook.xml" }

/-- `demoSheet` holding `1.04` displayed through the format `#,##0.0`. -/
def roundingLowSheet : Worksheet := demoSheet (26 / 25) "#,##0.0"

/-- `demoSheet` holding `1850.04` displayed through the format `#,##0.0`. -/
def roundingYearSheet : Worksheet := demoSheet (46251 / 25) "#,##0.0"

/-- `demoSheet` holding the plain integer `1850`. -/
def plainYearSheet : Worksheet := demoSheet 1850 "General"

/-- A 10×10 sheet with no values at all. -/
def emptySheet : Worksheet :=
  { maxRow := 10, maxCol := 10, cells := fun _ _ => mkCell .none
    merged := [], parentPath := "/xl/workbook.xml" }

/-- A 10×10 sheet with numeric data at `(6, 6)` and `(10, 10)`. -/
def numericSheet : Worksheet :=
  { maxRow := 10, maxCol := 10
    cells := fun r c =>
      if r = 6 ∧ c = 6 then mkCell (.num 500)
      else if r = 10 ∧ c = 10 then mkCell (.num 700)
      else mkCell .none
    merged := [], parentPath := "/xl/workbook.xml" }

/-! ## Shared lemmas -/

/-- A value that normalizes to a positive number is Python-truthy. -/
theorem truthy_of_normalize_pos {v : PyVal} {q : ℚ}
    (hn : normalize_value v = some q) (hq : 0 < q) : truthy v = true := by
  cases v with
  | none => simp [normalize_value] at hn
  | num q' =>
    simp only [normalize_value, Option.some.injEq] at hn
    subst hn
    simpa [truthy] using ne_of_gt hq
  | str s =>
    by_cases hs : s = ""
    · subst hs
      have h0 : normalize_value (.str "") = Option.none := by decide
      rw [h0] at hn
      exact absurd hn (by simp)
    · simpa [truthy] using hs

/-- A value that normalizes into the year range is classified as a likely
header by `_is_likely_header` (its final numeric test fires whenever no
earlier branch already said "header"). -/
theorem is_likely_header_of_year (c : Cell) (q : ℚ)
    (hn : normalize_value c.value = some q) (h1 : 1900 ≤ q) (h2 : q ≤ 2030) :
    is_likely_header c = true := by
  have ht : truthy c.value = true := truthy_of_normalize_pos hn (by linarith)
  unfold is_likely_header
  rw [ht]
  simp only [Bool.not_true, Bool.false_eq_true, if_false]
  split
  · rfl
  · split
    · rfl
    · split
      · rfl
      · rw [hn]
        simp [h1, h2]

/-- Cells whose normalized value lies in the year range `[1900, 2030]` are
never data cells: either the raw value itself parses as a year
(`is_year`), or `_is_likely_header` rejects it. -/
theorem is_data_cell_false_of_year (c : Cell) (q : ℚ)
    (hn : normalize_value c.value = some q) (h1 : 1900 ≤ q) (h2 : q ≤ 2030) :
    is_data_cell c = false := by
  have ht : truthy c.value = true := truthy_of_normalize_pos hn (by linarith)
  unfold is_data_cell
  rw [ht, hn]
  simp only [Bool.not_true, Bool.false_eq_true, if_false]
  cases hy : is_year c.value
  · rw [is_likely_header_of_year c q hn h1 h2]
    simp
  · simp

/-- Only non-`None` values normalize successfully. -/
theorem value_ne_none_of_normalize {v : PyVal} {q : ℚ}
    (hn : normalize_value v = some q) : v ≠ PyVal.none := by
  intro h
  subst h
  simp [normalize_value] at hn

/-- The two year filters of `get_displayed_value` reject every
integer-valued normalized value in `[1800, 2100]`. -/
theorem displayed_none_of_yearlike (c : Cell) (q : ℚ)
    (hn : normalize_value c.value = some q) (hden : q.den = 1)
    (h1 : 1800 ≤ q) (h2 : q ≤ 2100) :
    get_displayed_value c = Option.none := by
  unfold get_displayed_value
  rw [if_neg (by simpa using value_ne_none_of_normalize hn), hn]
  by_cases hfirst : 1900 ≤ q ∧ q ≤ 2030 ∧ q.den = 1
  · simp [hfirst.1, hfirst.2.1, hfirst.2.2]
  · simp [hfirst, h1, h2, hden, show q < 10000 by linarith]

/-- Nothing with a normalized value `≤ 1` passes `is_data_cell`. -/
theorem is_data_cell_false_of_small {c : Cell} {q : ℚ}
    (hn : normalize_value c.value = some q) (hq : q ≤ 1) :
    is_data_cell c = false := by
  unfold is_data_cell
  rw [hn]
  cases ht : truthy c.value with
  | false => simp [ht]
  | true =>
    simp only [ht, Bool.not_true, Bool.false_eq_true, if_false]
    cases hy : is_year c.value with
    | true => simp [hy]
    | false =>
      cases hh : is_likely_header c with
      | true => simp [hy, hh]
      | false => simp [hy, hh, hq]

/-- Falsy cells never pass `is_data_cell`. -/
theorem is_data_cell_false_of_falsy {c : Cell} (h : truthy c.value = false) :
    is_data_cell c = false := by
  unfold is_data_cell
  rw [h]
  rfl

/-- Everything `is_data_cell` accepts has a normalized value above 1. -/
theorem is_data_cell_true_elim {c : Cell} (h : is_data_cell c = true) :
    ∃ q, normalize_value c.value = some q ∧ 1 < q := by
  unfold is_data_cell at h
  split at h
  · simp at h
  · split at h
    · simp at h
    · rename_i q hq
      split at h
      · simp at h
      · split at h
        · simp at h
        · split at h
          · simp at h
          · rename_i hle
            exact ⟨q, hq, by linarith [not_le.mp hle]⟩

/-- Every point emitted by the extractor comes from a cell whose
*normalized* value exceeds 1 (the `is_data_cell` gate). -/
theorem extraction_point_sound (ws : Worksheet) (p : DataPoint)
    (hmem : p ∈ extract_simple_data_points ws) :
    ∃ q, normalize_value (ws.cells p.position.1 p.position.2).value = some q ∧ 1 < q := by
  unfold extract_simple_data_points at hmem
  rw [List.mem_filterMap] at hmem
  obtain ⟨rc, -, hstep⟩ := hmem
  unfold extractionStep at hstep
  dsimp only at hstep
  split at hstep
  · rename_i hdc
    split at hstep
    · exact absurd hstep (by simp)
    · split at hstep
      · exact absurd hstep (by simp)
      · injection hstep with h
        subst h
        exact is_data_cell_true_elim hdc
  · exact absurd hstep (by simp)

/-! ## Claim C1 -/

/-- **C1, counterexample.**  The Value Normalizer itself does *not*
reclassify integer-valued floats in `[1900, 2030]`:
`normalize_value("1976")` is the float `1976.0`, not not-a-value. -/
theorem normalize_value_parses_1976 :
    normalize_value (PyVal.str "1976") = some 1976 ∧
      normalize_value (PyVal.str "1976") ≠ Option.none := by
  exact ⟨by decide, by decide⟩

/-- **C1, amended.**  The year filter is applied downstream of the Value
Normalizer: any cell whose `normalize_value` result lies in
`[1900, 2030]` is rejected as a data cell by `is_data_cell`, and — when
the value is integer-valued — `get_displayed_value` returns not-a-value
for it; `normalize_value` itself returns the parsed float. -/
theorem year_filter_applied_downstream (c : Cell) (q : ℚ)
    (hn : normalize_value c.value = some q) (h1 : 1900 ≤ q) (h2 : q ≤ 2030) :
    is_data_cell c = false ∧ (q.den = 1 → get_displayed_value c = Option.none) :=
  ⟨is_data_cell_false_of_year c q hn h1 h2,
   fun hden => displayed_none_of_yearlike c q hn hden (by linarith) (by linarith)⟩

/-- Witness for `year_filter_applied_downstream` at the cell `"1976"`. -/
theorem year_filter_applied_downstream_witness :
    is_data_cell ⟨PyVal.str "1976", "General"⟩ = false ∧
      get_displayed_value ⟨PyVal.str "1976", "General"⟩ = Option.none := by
  have h := year_filter_applied_downstream ⟨PyVal.str "1976", "General"⟩ 1976
    (by decide) (by decide) (by decide)
  exact ⟨h.1, h.2 (by decide)⟩

/-! ## Claim C9 -/

/-- **C9, counterexample.**  An integer value in `[1800, 2100]` *can*
appear as a data point's value: the cell `1850.04` (format `#,##0.0`)
passes the year-band filter (it is not integer-valued), and the
number-format rounding applied afterwards emits the data point value
`1850`. -/
theorem integer_year_band_value_emitted :
    extract_simple_data_points roundingYearSheet =
      [{ row := "Hotelaria", column := "2023", value := 1850, position := (2, 2),
         originalRow := "Hotelaria", originalColumn := "2023" }] ∧
      (1850 : ℚ).den = 1 ∧ 1800 ≤ (1850 : ℚ) ∧ (1850 : ℚ) ≤ 2100 ∧
      normalize_value (roundingYearSheet.cells 2 2).value = some (46251 / 25) := by
  refine ⟨by decide, by decide, by decide, by decide, by decide⟩

/-- **C9, amended.**  `get_displayed_value` returns not-a-value whenever
the cell's *normalized* value is integer-valued in `[1800, 2100]`, so
such a cell never yields a data point; but because number-format
rounding runs after this filter, a non-integer value can still round to
an integer such as 1850 in the emitted data point. -/
theorem displayed_value_rejects_year_band (ws : Worksheet) (rc : ℕ × ℕ) (q : ℚ)
    (hn : normalize_value (ws.cells rc.1 rc.2).value = some q)
    (hden : q.den = 1) (h1 : 1800 ≤ q) (h2 : q ≤ 2100) :
    get_displayed_value (ws.cells rc.1 rc.2) = Option.none ∧
      extractionStep ws rc = Option.none := by
  have hd := displayed_none_of_yearlike _ q hn hden h1 h2
  refine ⟨hd, ?_⟩
  unfold extractionStep
  dsimp only
  rw [hd]
  split <;> rfl

/-- Witness for `displayed_value_rejects_year_band` at the cell `1850`. -/
theorem displayed_value_rejects_year_band_witness :
    get_displayed_value (plainYearSheet.cells 2 2) = Option.none ∧
      extractionStep plainYearSheet (2, 2) = Option.none :=
  displayed_value_rejects_year_band plainYearSheet (2, 2) 1850
    (by decide) (by decide) (by decide) (by decide)

/-! ## Claim C10 -/

/-- **C10, counterexample.**  An emitted data point need *not* have a
value strictly greater than 1: the cell `1.04` (format `#,##0.0`) passes
`is_data_cell` (normalized value `1.04 > 1`), but the number-format
rounding inside `get_displayed_value` emits the value `1.0`. -/
theorem emitted_value_not_above_one :
    extract_simple_data_points roundingLowSheet =
      [{ row := "Hotelaria", column := "2023", value := 1, position := (2, 2),
         originalRow := "Hotelaria", originalColumn := "2023" }] ∧
      ¬ (1 : ℚ) > 1 := by
  exact ⟨by decide, by decide⟩

/-- **C10, amended.**  `is_data_cell` rejects falsy cells and every cell
whose normalized value is `≤ 1`, so every emitted data point comes from a
cell whose *normalized* value is strictly greater than 1; the *emitted*
value itself, after number-format rounding in `get_displayed_value`, can
still be exactly 1. -/
theorem data_cell_requires_value_above_one :
    (∀ c : Cell, (truthy c.value = false → is_data_cell c = false) ∧
        ∀ q : ℚ, normalize_value c.value = some q → q ≤ 1 → is_data_cell c = false) ∧
      ∀ (ws : Worksheet) (p : DataPoint), p ∈ extract_simple_data_points ws →
        ∃ q, normalize_value (ws.cells p.position.1 p.position.2).value = some q ∧ 1 < q :=
  ⟨fun _ => ⟨fun h => is_data_cell_false_of_falsy h,
             fun _ hn hq => is_data_cell_false_of_small hn hq⟩,
   extraction_point_sound⟩

/-- Witness for `data_cell_requires_value_above_one` at the cells `0.5`
and `""`, and at the extraction run over `roundingYearSheet`. -/
theorem data_cell_requires_value_above_one_witness :
    is_data_cell ⟨PyVal.num (1 / 2), "General"⟩ = false ∧
      is_data_cell ⟨PyVal.str "", "General"⟩ = false ∧
      ∃ q, normalize_value
          (roundingYearSheet.cells 2 2).value = some q ∧ 1 < q := by
  refine ⟨(data_cell_requires_value_above_one.1 _).2 (1 / 2) (by decide) (by decide),
    (data_cell_requires_value_above_one.1 _).1 (by decide),
    ?_⟩
  have h := data_cell_requires_value_above_one.2 roundingYearSheet
    { row := "Hotelaria", column := "2023", value := 1850, position := (2, 2),
      originalRow := "Hotelaria", originalColumn := "2023" }
    (by decide)
  exact h

/-! ## Singleton-comparison classification (shared by C3 and C4) -/

/-- Comparing a single published against a single recreated point with
equal coordinate keys: within tolerance the pair lands in
`correct_matches` (with the absolute difference recorded), otherwise in
`value_differences` (with the signed difference `recreated - published`). -/
theorem compare_singleton_classify (p r : DataPoint) (tol : ℚ)
    (hkey : normalize_coordinate_key p.row p.column
      = normalize_coordinate_key r.row r.column) :
    (|r.value - p.value| ≤ tol →
      compare_simple_data [p] [r] tol =
        { correctMatches :=
            [{ coordinates := normalize_coordinate_key r.row r.column,
               publishedValue := p.value, recreatedValue := r.value,
               position := r.position, difference := |r.value - p.value| }]
          valueDifferences := []
          missingInPublished := []
          missingInRecreated := []
          publishedDataPoints := 1
          recreatedDataPoints := 1
          accuracy := 100
          totalDiscrepancies := 0 }) ∧
    (tol < |r.value - p.value| →
      compare_simple_data [p] [r] tol =
        { correctMatches := []
          valueDifferences :=
            [{ coordinates := normalize_coordinate_key r.row r.column,
               publishedValue := p.value, recreatedValue := r.value,
               position := r.position, difference := r.value - p.value }]
          missingInPublished := []
          missingInRecreated := []
          publishedDataPoints := 1
          recreatedDataPoints := 1
          accuracy := 0
          totalDiscrepancies := 1 }) := by
  have hb : buildCoordinateMap [p] = [(normalize_coordinate_key r.row r.column, p)] := by
    simp [buildCoordinateMap, dictInsert, hkey]
  have hb2 : buildCoordinateMap [r] = [(normalize_coordinate_key r.row r.column, r)] := by
    simp [buildCoordinateMap, dictInsert]
  constructor
  · intro h
    norm_num [compare_simple_data, hb, hb2, dictLookup, h,
      List.filterMap_cons, List.filterMap_nil]
  · intro h
    norm_num [compare_simple_data, hb, hb2, dictLookup, not_le.mpr h,
      List.filterMap_cons, List.filterMap_nil]

/-! ## Claim C3 -/

/-- **C3** (confirmed).  For a published/recreated pair sharing one
coordinate key, the pair is a `correct_match` exactly when
`|Δ| ≤ tolerance` and a `value_difference` (carrying the signed
difference `recreated - published`) exactly otherwise; a match carries
the absolute difference. -/
theorem tolerance_split_match_vs_difference (p r : DataPoint) (tol : ℚ)
    (hkey : normalize_coordinate_key p.row p.column
      = normalize_coordinate_key r.row r.column) :
    ((compare_simple_data [p] [r] tol).correctMatches ≠ [] ↔ |r.value - p.value| ≤ tol) ∧
    ((compare_simple_data [p] [r] tol).valueDifferences ≠ [] ↔ tol < |r.value - p.value|) ∧
    (|r.value - p.value| ≤ tol →
      (compare_simple_data [p] [r] tol).correctMatches.map (·.difference)
        = [|r.value - p.value|]) ∧
    (tol < |r.value - p.value| →
      (compare_simple_data [p] [r] tol).valueDifferences.map (·.difference)
        = [r.value - p.value]) := by
  have hcl := compare_singleton_classify p r tol hkey
  by_cases h : |r.value - p.value| ≤ tol
  · rw [hcl.1 h]
    simp [h, not_lt.mpr h]
  · rw [hcl.2 (not_le.mp h)]
    simp [h, not_le.mp h]

/-- Published point `(Total, 2020) = 100` at cell `(7, 7)`. -/
def publishedHundred : DataPoint :=
  { row := "Total", column := "2020", value := 100, position := (7, 7),
    originalRow := "Total", originalColumn := "2020" }

/-- Recreated point `(Total, 2020) = 101` at cell `(3, 3)`. -/
def recreatedHundredOne : DataPoint :=
  { row := "Total", column := "2020", value := 101, position := (3, 3),
    originalRow := "Total", originalColumn := "2020" }

/-- Witness for `tolerance_split_match_vs_difference`:
`101` versus `100` is a match under the default tolerance 1.0 and a
`value_difference` of `+1` under tolerance 0.5. -/
theorem tolerance_split_witness :
    (compare_simple_data [publishedHundred] [recreatedHundredOne]
        numeric_tolerance).correctMatches ≠ [] ∧
    (compare_simple_data [publishedHundred] [recreatedHundredOne]
        (1 / 2)).valueDifferences.map (·.difference) = [1] := by
  have h1 := tolerance_split_match_vs_difference publishedHundred recreatedHundredOne
    numeric_tolerance (by decide)
  have h2 := tolerance_split_match_vs_difference publishedHundred recreatedHundredOne
    (1 / 2) (by decide)
  refine ⟨h1.1.mpr (by decide), ?_⟩
  have h3 := h2.2.2.2 (by decide)
  rw [h3]
  decide

/-! ## Claim C4 -/

/-- **C4** (confirmed).  Two points identical except that one side's
second header level is `"****"` where the other's is `"4"` get equal
coordinate keys after semantic equivalence and are classified as a match
(in both published/recreated orientations), provided the values agree
within tolerance. -/
theorem star_rating_equivalence_match (row : String) (v1 v2 : ℚ)
    (pos1 pos2 : ℕ × ℕ) (o1 o2 o3 o4 : String)
    (hv : |v2 - v1| ≤ numeric_tolerance) :
    normalize_coordinate_key row "****" = normalize_coordinate_key row "4" ∧
    (compare_simple_data [⟨row, "****", v1, pos1, o1, o2⟩]
        [⟨row, "4", v2, pos2, o3, o4⟩] numeric_tolerance).correctMatches.length = 1 ∧
    (compare_simple_data [⟨row, "****", v1, pos1, o1, o2⟩]
        [⟨row, "4", v2, pos2, o3, o4⟩] numeric_tolerance).valueDifferences = [] ∧
    (compare_simple_data [⟨row, "****", v1, pos1, o1, o2⟩]
        [⟨row, "4", v2, pos2, o3, o4⟩] numeric_tolerance).missingInPublished = [] ∧
    (compare_simple_data [⟨row, "4", v1, pos1, o1, o2⟩]
        [⟨row, "****", v2, pos2, o3, o4⟩] numeric_tolerance).correctMatches.length = 1 := by
  have hstar : apply_semantic_equivalence "****" = "4" := by decide
  have hfour : apply_semantic_equivalence "4" = "4" := by decide
  have hkey : normalize_coordinate_key row "****" = normalize_coordinate_key row "4" := by
    unfold normalize_coordinate_key
    rw [hstar, hfour]
  have hcl := compare_singleton_classify ⟨row, "****", v1, pos1, o1, o2⟩
    ⟨row, "4", v2, pos2, o3, o4⟩ numeric_tolerance hkey
  have hcl2 := compare_singleton_classify ⟨row, "4", v1, pos1, o1, o2⟩
    ⟨row, "****", v2, pos2, o3, o4⟩ numeric_tolerance hkey.symm
  refine ⟨hkey, ?_, ?_, ?_, ?_⟩
  · rw [hcl.1 hv]
    rfl
  · rw [hcl.1 hv]
  · rw [hcl.1 hv]
  · rw [hcl2.1 hv]
    rfl

/-- Witness for `star_rating_equivalence_match` at two concrete points. -/
theorem star_rating_equivalence_match_witness :
    normalize_coordinate_key "Hotelaria" "****" = normalize_coordinate_key "Hotelaria" "4" ∧
      (compare_simple_data [⟨"Hotelaria", "****", 200, (4, 4), "Hotelaria", "****"⟩]
          [⟨"Hotelaria", "4", 200, (2, 2), "Hotelaria", "4"⟩]
          numeric_tolerance).correctMatches.length = 1 := by
  have h := star_rating_equivalence_match "Hotelaria" 200 200 (4, 4) (2, 2)
    "Hotelaria" "****" "Hotelaria" "4" (by decide)
  exact ⟨h.1, h.2.1⟩

/-! ## Claim C7 -/

/-- **C7** (confirmed).  When two points resolve to the same coordinate
key, the later one silently overwrites the earlier one in the lookup
map, so the earlier point never participates in matching: the four
classification lists of a comparison against `[p1, p2]` coincide with
those of a comparison against `[p2]` alone. -/
theorem duplicate_key_overwrite (p1 p2 : DataPoint) (pub : List DataPoint) (tol : ℚ)
    (hkey : normalize_coordinate_key p1.row p1.column
      = normalize_coordinate_key p2.row p2.column) :
    buildCoordinateMap [p1, p2] = [(normalize_coordinate_key p2.row p2.column, p2)] ∧
    dictLookup (buildCoordinateMap [p1, p2])
        (normalize_coordinate_key p1.row p1.column) = some p2 ∧
    (compare_simple_data pub [p1, p2] tol).correctMatches
      = (compare_simple_data pub [p2] tol).correctMatches ∧
    (compare_simple_data pub [p1, p2] tol).valueDifferences
      = (compare_simple_data pub [p2] tol).valueDifferences ∧
    (compare_simple_data pub [p1, p2] tol).missingInPublished
      = (compare_simple_data pub [p2] tol).missingInPublished ∧
    (compare_simple_data pub [p1, p2] tol).missingInRecreated
      = (compare_simple_data pub [p2] tol).missingInRecreated := by
  have hb : buildCoordinateMap [p1, p2]
      = [(normalize_coordinate_key p2.row p2.column, p2)] := by
    simp [buildCoordinateMap, dictInsert, hkey]
  have hb2 : buildCoordinateMap [p2]
      = [(normalize_coordinate_key p2.row p2.column, p2)] := by
    simp [buildCoordinateMap, dictInsert]
  refine ⟨hb, ?_, ?_, ?_, ?_, ?_⟩
  · rw [hb, hkey]
    simp [dictLookup]
  all_goals simp [compare_simple_data, hb, hb2]

/-- Witness for `duplicate_key_overwrite`: two same-key recreated points
with different values; only the later one is compared. -/
theorem duplicate_key_overwrite_witness :
    buildCoordinateMap [publishedHundred, recreatedHundredOne]
      = [(normalize_coordinate_key recreatedHundredOne.row recreatedHundredOne.column,
          recreatedHundredOne)] ∧
    dictLookup (buildCoordinateMap [publishedHundred, recreatedHundredOne])
        (normalize_coordinate_key publishedHundred.row publishedHundred.column)
      = some recreatedHundredOne := by
  have h := duplicate_key_overwrite publishedHundred recreatedHundredOne [] 1 (by decide)
  exact ⟨h.1, h.2.1⟩

/-! ## Claim C6 -/

/-- **C6, counterexample.**  The reported accuracy is *not*
`correct_matches / recreated_total`: with one recreated point and one
correct match the code reports `100` (a percentage), not `1`. -/
theorem accuracy_is_percentage_counterexample :
    (compare_simple_data [publishedHundred] [recreatedHundredOne]
        numeric_tolerance).accuracy = 100 ∧
    (compare_simple_data [publishedHundred] [recreatedHundredOne]
        numeric_tolerance).correctMatches.length = 1 ∧
    ([recreatedHundredOne] : List DataPoint).length = 1 ∧
    (compare_simple_data [publishedHundred] [recreatedHundredOne]
        numeric_tolerance).accuracy ≠
      ((compare_simple_data [publishedHundred] [recreatedHundredOne]
          numeric_tolerance).correctMatches.length : ℚ)
        / (([recreatedHundredOne] : List DataPoint).length : ℚ) := by
  refine ⟨by decide, by decide, by decide, by decide⟩

/-- **C6, amended.**  The reported accuracy is the *percentage*
`correct_matches / recreated_total * 100`, and `0` when there are no
recreated points. -/
theorem accuracy_formula (pub rec : List DataPoint) (tol : ℚ) :
    (compare_simple_data pub rec tol).accuracy =
      (if 0 < rec.length then
        ((compare_simple_data pub rec tol).correctMatches.length : ℚ)
          / (rec.length : ℚ) * 100
      else 0) := by
  rfl

/-! ## Claim C8 -/

/-- **C8, counterexample.**  The detector's result carries no explicit
"no data detected" marker: a sheet with zero detector candidates yields
exactly the same result as a sheet full of data whose bounds happen to
cover the whole sheet — the two cases cannot be told apart from the
returned value. -/
theorem no_data_marker_counterexample :
    detected_data_cells emptySheet = [] ∧
    detected_data_cells numericSheet ≠ [] ∧
    find_data_table emptySheet = find_data_table numericSheet := by
  refine ⟨by decide, by decide, by decide⟩

/-- **C8, amended.**  With zero data cells the detector raises no
exception and falls back to the full sheet area
`(1, max_row, 1, max_col)`; no marker distinguishes this from a detected
table. -/
theorem no_data_full_sheet_fallback (ws : Worksheet)
    (h : detected_data_cells ws = []) :
    find_data_table ws = (1, ws.maxRow, 1, ws.maxCol) := by
  unfold find_data_table
  rw [h]

/-- Witness for `no_data_full_sheet_fallback` at the empty 10×10 sheet. -/
theorem no_data_full_sheet_fallback_witness :
    find_data_table emptySheet = (1, 10, 1, 10) :=
  no_data_full_sheet_fallback emptySheet (by decide)

/-! ## Claim C2 -/

/-- Follows the spec's words (§3 and §4.7): two header labels are
"equal-or-equivalent" when they are equal or the pairwise
semantic-equivalence table maps one to the other, queried symmetrically. -/
def spec_level_equivalent (a b : String) : Bool :=
  a = b || lookupStr semantic_equivalents a = some b
    || lookupStr semantic_equivalents b = some a

/-- Follows the spec's words (§4.7): per-level equal-or-equivalent test
between two same-arity coordinate keys. -/
def spec_keys_equivalent (k1 k2 : CoordKey) : Bool :=
  spec_level_equivalent k1.1 k2.1 && spec_level_equivalent k1.2 k2.2

/-- Recreated point `(Lisboa, Total) = 100`. -/
def recreatedTotalPoint : DataPoint :=
  { row := "Lisboa", column := "Total", value := 100, position := (2, 2),
    originalRow := "Lisboa", originalColumn := "Total" }

/-- Published point `(Lisboa, (Em branco)) = 100`. -/
def publishedBlankPoint : DataPoint :=
  { row := "Lisboa", column := "(Em branco)", value := 100, position := (5, 5),
    originalRow := "Lisboa", originalColumn := "(Em branco)" }

/-- **C2, counterexample.**  A recreated point whose key has no exact hit
is classified `missing_in_published` even though a published key is
per-level semantically equivalent (and the values are equal): the
equivalence swap `Total ↔ (Em branco)` makes the two keys unequal, and
`compare_simple_data` applies no semantic or fuzzy fallback. -/
theorem missing_despite_semantic_equivalent :
    (compare_simple_data [publishedBlankPoint] [recreatedTotalPoint]
        numeric_tolerance).missingInPublished =
      [{ coordinates := ("Lisboa", "(Em branco)"), recreatedValue := 100,
         position := (2, 2) }] ∧
    buildCoordinateMap [publishedBlankPoint]
      = [(("Lisboa", "Total"), publishedBlankPoint)] ∧
    spec_keys_equivalent ("Lisboa", "(Em branco)") ("Lisboa", "Total") = true ∧
    |recreatedTotalPoint.value - publishedBlankPoint.value| ≤ numeric_tolerance := by
  refine ⟨by decide, by decide, by decide, by decide⟩

/-- **C2, amended.**  In the per-sheet comparison actually performed
(`compare_simple_data`), a recreated coordinate key is classified
`missing_in_published` *exactly* when it has no exact hit in the
published map — no semantic-equivalence or fuzzy fallback is consulted
(the fallback ladder exists only in the never-called
`compare_data_maps`, which labels such points `not_found`). -/
theorem missing_in_published_iff_no_exact_hit (pub rec : List DataPoint) (tol : ℚ)
    (k : CoordKey) (r : DataPoint) (hmem : (k, r) ∈ buildCoordinateMap rec) :
    ((∃ m ∈ (compare_simple_data pub rec tol).missingInPublished, m.coordinates = k) ↔
      dictLookup (buildCoordinateMap pub) k = Option.none) := by
  constructor
  · rintro ⟨m, hm, hcoord⟩
    unfold compare_simple_data at hm
    dsimp only at hm
    rw [List.mem_filterMap] at hm
    obtain ⟨kv, hkv, hf⟩ := hm
    split at hf
    · exact absurd hf (by simp)
    · rename_i hnone
      injection hf with hf
      subst hf
      have hk : kv.1 = k := hcoord
      rw [← hk]
      exact hnone
  · intro hnone
    refine ⟨⟨k, r.value, r.position⟩, ?_, rfl⟩
    unfold compare_simple_data
    dsimp only
    rw [List.mem_filterMap]
    refine ⟨(k, r), hmem, ?_⟩
    rw [hnone]

/-- Witness for `missing_in_published_iff_no_exact_hit` at the concrete
`Total` / `(Em branco)` pair. -/
theorem missing_in_published_iff_no_exact_hit_witness :
    ((∃ m ∈ (compare_simple_data [publishedBlankPoint] [recreatedTotalPoint]
          numeric_tolerance).missingInPublished,
        m.coordinates = (("Lisboa", "(Em branco)") : CoordKey)) ↔
      dictLookup (buildCoordinateMap [publishedBlankPoint])
        ("Lisboa", "(Em branco)") = Option.none) :=
  missing_in_published_iff_no_exact_hit [publishedBlankPoint] [recreatedTotalPoint]
    numeric_tolerance ("Lisboa", "(Em branco)") recreatedTotalPoint (by decide)

/-! ## Claim C5 -/

/-- Counting a non-dropped character is unchanged by `dropWhile`. -/
theorem count_dropWhile_eq {p : Char → Bool} {c : Char} (hc : p c = false) :
    ∀ l : List Char, (l.dropWhile p).count c = l.count c := by
  intro l
  induction l with
  | nil => rfl
  | cons a as ih =>
    by_cases ha : p a = true
    · rw [List.dropWhile_cons_of_pos ha, ih]
      have hne : c ≠ a := by
        intro h
        rw [← h, hc] at ha
        cases ha
      rw [List.count_cons_of_ne hne]
    · rw [List.dropWhile_cons_of_neg ha]

/-- Stripping edge whitespace does not change the count of a non-space
character. -/
theorem count_stripChars {c : Char} (hc : pyIsSpace c = false) (l : List Char) :
    (stripChars l).count c = l.count c := by
  unfold stripChars dropTrailing
  rw [List.count_reverse, count_dropWhile_eq hc, List.count_reverse,
    count_dropWhile_eq hc]

/-- Removing whitespace does not change the count of a non-space
character. -/
theorem count_removeWSChars {c : Char} (hc : pyIsSpace c = false) (l : List Char) :
    (removeWSChars l).count c = l.count c := by
  unfold removeWSChars
  rw [List.count_filter (by simp [hc])]

/-- **C5** (confirmed).  For every string with exactly one comma and no
dots, `normalize_value` treats the comma as the decimal separator after
removing all whitespace: the result is exactly the parse of the
whitespace-free string with its comma replaced by a dot.  In particular
`normalize("30 602,0") = 30602.0` and `normalize("1 234,56") = 1234.56`. -/
theorem single_comma_is_decimal_separator :
    (∀ s : String, s.data.count ',' = 1 → s.data.count '.' = 0 →
      normalize_value (.str s) =
        pyFloatCore (cleanNumeric (replaceChar ',' '.' (removeWSChars (pyStrip s).data)))) ∧
    normalize_value (.str "30 602,0") = some 30602 ∧
    normalize_value (.str "1 234,56") = some (30864 / 25) := by
  refine ⟨?_, by decide, by decide⟩
  intro s hc hd
  have hstripC : (pyStrip s).data.count ',' = 1 := by
    show (stripChars s.data).count ',' = 1
    rw [count_stripChars (by decide)]
    exact hc
  have hstripD : (pyStrip s).data.count '.' = 0 := by
    show (stripChars s.data).count '.' = 0
    rw [count_stripChars (by decide)]
    exact hd
  have htC : (removeWSChars (pyStrip s).data).count ',' = 1 := by
    rw [count_removeWSChars (by decide)]
    exact hstripC
  have htD : (removeWSChars (pyStrip s).data).count '.' = 0 := by
    rw [count_removeWSChars (by decide)]
    exact hstripD
  have h1 : pyStrip s ≠ "" := by
    intro h
    rw [h] at hstripC
    exact absurd hstripC (by decide)
  have h2 : pyStrip s ≠ "-" := by
    intro h
    rw [h] at hstripC
    exact absurd hstripC (by decide)
  unfold normalize_value
  dsimp only
  rw [if_neg (by simp [h1, h2])]
  simp only [htC, htD]
  norm_num

/-- Witness for `single_comma_is_decimal_separator` at `"30 602,0"`. -/
theorem single_comma_witness :
    normalize_value (.str "30 602,0") =
      pyFloatCore (cleanNumeric (replaceChar ',' '.'
        (removeWSChars (pyStrip "30 602,0").data))) ∧
    normalize_value (.str "30 602,0") = some 30602 := by
  refine ⟨single_comma_is_decimal_separator.1 "30 602,0" (by decide) (by decide), by decide⟩

end EtlWorkflow
